import Mathlib

/-!
Verification of the provider-fallback orchestrator in src/engines/ai_engine.py.

The embedding models:
  - the AIProvider enum and its string values;
  - the CircuitBreaker class: the per-provider status dict becomes an
    association list from provider name to a record of failure count and
    optional last-failure timestamp; wall-clock time (time.time) becomes an
    explicit natural-number parameter `now` threaded through each operation;
  - the AIEngine.generate fallback loop: the registry of configured providers
    becomes the list of its keys, the per-provider call routines become an
    oracle from provider name to `Except String String` (error message on a
    raised exception, returned text otherwise; the dependence of the routines
    on the prompt, system instruction and generation parameters is folded into
    the oracle, which is universally quantified in the theorems), and the
    progress callback becomes observation: the status strings passed to it are
    collected in a trace (a callback that itself raises is outside the model).

Within one generate call the clock is frozen at `now`, so the latency field of
a success response is 0 in the model.
-/

namespace LearningHub

/-- The AIProvider enum of ai_engine.py. -/
inductive AIProvider
  | GEMINI
  | DEEPSEEK
  | GROK
deriving DecidableEq

/-- The string value carried by each AIProvider enum member. -/
def AIProvider.value : AIProvider → String
  | .GEMINI => "gemini"
  | .DEEPSEEK => "deepseek"
  | .GROK => "grok"

/-- The AIResponse dataclass: standardized AI response. -/
structure AIResponse where
  success : Bool
  content : String
  provider : String
  latency : Nat
  tokens : Nat
  error : Option String
deriving DecidableEq

/-- One entry of CircuitBreaker.provider_status: a dict with a failure counter
and an optional last-failure timestamp. -/
structure ProviderStatus where
  failures : Nat
  last_failure : Option Nat
deriving DecidableEq

/-- The CircuitBreaker class state: configuration plus the per-provider status
map (a Python dict keyed by provider name, embedded as an association list). -/
structure CircuitBreaker where
  failure_threshold : Nat
  timeout : Nat
  provider_status : List (String × ProviderStatus)
deriving DecidableEq

/-- CircuitBreaker constructor: every AIProvider value starts with zero
failures and no last-failure timestamp. -/
def CircuitBreaker.init (failure_threshold : Nat) (timeout : Nat) : CircuitBreaker :=
  { failure_threshold := failure_threshold
    timeout := timeout
    provider_status :=
      [(AIProvider.GEMINI.value, { failures := 0, last_failure := none }),
       (AIProvider.DEEPSEEK.value, { failures := 0, last_failure := none }),
       (AIProvider.GROK.value, { failures := 0, last_failure := none })] }

/-- The breaker built with the default constructor arguments
(failure_threshold 3, timeout 300), as AIEngine does. -/
def CircuitBreaker.mkDefault : CircuitBreaker :=
  CircuitBreaker.init 3 300

/-- First-match lookup in an association list, the embedding of a Python dict
read by key. -/
def lookupStatus : List (String × ProviderStatus) → String → Option ProviderStatus
  | [], _ => none
  | kv :: t, q => if q = kv.1 then some kv.2 else lookupStatus t q

/-- Lookup of one provider record in the status map
(self.provider_status.get(provider) for the purpose of reading it). -/
def CircuitBreaker.statusOf (cb : CircuitBreaker) (provider : String) :
    Option ProviderStatus :=
  lookupStatus cb.provider_status provider

/-- In-place mutation of the record stored under key `p` of the status dict:
entries under other keys are untouched. -/
def updateStatus (m : List (String × ProviderStatus)) (p : String)
    (f : ProviderStatus → ProviderStatus) : List (String × ProviderStatus) :=
  m.map fun kv => if kv.1 = p then (kv.1, f kv.2) else kv

/-- Replace the status map of a breaker, keeping its configuration. -/
def CircuitBreaker.withMap (cb : CircuitBreaker)
    (m : List (String × ProviderStatus)) : CircuitBreaker :=
  { cb with provider_status := m }

/-- CircuitBreaker.is_available. The Python method reads
status = provider_status.get(provider, empty dict); if status.get("last_failure")
is truthy and more than `timeout` seconds old, it zeroes the record in place and
returns True; otherwise it returns status.get("failures", 0) < failure_threshold.
The boolean result is paired with the possibly mutated breaker. The Python
truthiness test on the timestamp is modeled literally: a timestamp equal to 0 is
falsy, exactly as the float 0.0 would be. -/
def CircuitBreaker.is_available (cb : CircuitBreaker) (provider : String)
    (now : Nat) : Bool × CircuitBreaker :=
  match cb.statusOf provider with
  | none => (decide (0 < cb.failure_threshold), cb)
  | some status =>
    if status.last_failure.getD 0 ≠ 0 then
      if now - status.last_failure.getD 0 > cb.timeout then
        (true, cb.withMap (updateStatus cb.provider_status provider
          (fun _ => { failures := 0, last_failure := none })))
      else (decide (status.failures < cb.failure_threshold), cb)
    else (decide (status.failures < cb.failure_threshold), cb)

/-- CircuitBreaker.record_failure: for a provider present in the status map,
increment its failure count and stamp the current time; otherwise do nothing. -/
def CircuitBreaker.record_failure (cb : CircuitBreaker) (provider : String)
    (now : Nat) : CircuitBreaker :=
  if (cb.statusOf provider).isSome then
    cb.withMap (updateStatus cb.provider_status provider
      (fun s => { failures := s.failures + 1, last_failure := some now }))
  else cb

/-- CircuitBreaker.record_success: for a provider present in the status map,
reset its failure count to 0 and clear the timestamp; otherwise do nothing. -/
def CircuitBreaker.record_success (cb : CircuitBreaker) (provider : String) :
    CircuitBreaker :=
  if (cb.statusOf provider).isSome then
    cb.withMap (updateStatus cb.provider_status provider
      (fun _ => { failures := 0, last_failure := none }))
  else cb

/-- The fixed priority order of AIEngine.generate: Gemini, DeepSeek, Grok. -/
def provider_order : List String :=
  [AIProvider.GEMINI.value, AIProvider.DEEPSEEK.value, AIProvider.GROK.value]

/-- The failure response returned by generate when every provider is skipped
or fails. The error text is a fixed message. -/
def allFailedMessage : String :=
  "⚠️ Tất cả AI providers tạm thời không khả dụng. Thử lại sau!"

/-- The AIResponse built at the end of generate when no provider produced
content. -/
def allFailedResponse : AIResponse :=
  { success := false, content := "", provider := "none", latency := 0,
    tokens := 0, error := some allFailedMessage }

/-- Observable state of one generate call: the breaker, the providers whose
call routine was actually invoked (in invocation order), and the status strings
passed to the progress callback. -/
structure GenTrace where
  breaker : CircuitBreaker
  invoked : List String
  progress : List String
deriving DecidableEq

/-- The progress strings after the callback step for provider `p`: the Python
code invokes the callback with one status string only when a callback was
supplied. -/
def progressAfter (hasCallback : Bool) (ps : List String) (p : String) :
    List String :=
  if hasCallback then ps ++ ["🤖 Calling " ++ p.toUpper ++ "..."] else ps

/-- The provider loop of AIEngine.generate over a list of provider names:
skip a provider absent from the registry; skip a provider whose circuit is not
available; otherwise notify the callback, invoke the call routine, and either
return a success response on non-empty content (recording a success), fall
through on empty content, or record a failure and continue on a raised
exception. When the list is exhausted, return the fixed failure response. -/
def tryProviders (registry : List String) (calls : String → Except String String)
    (hasCallback : Bool) (now : Nat) :
    List String → GenTrace → AIResponse × GenTrace
  | [], st => (allFailedResponse, st)
  | p :: rest, st =>
    if p ∉ registry then
      tryProviders registry calls hasCallback now rest st
    else
      let av := st.breaker.is_available p now
      let st1 : GenTrace := { st with breaker := av.2 }
      if av.1 = false then
        tryProviders registry calls hasCallback now rest st1
      else
        let st3 : GenTrace :=
          { st1 with
            progress := progressAfter hasCallback st1.progress p
            invoked := st1.invoked ++ [p] }
        match calls p with
        | Except.ok content =>
          if content ≠ "" then
            ({ success := true, content := content, provider := p, latency := 0,
               tokens := 0, error := none },
             { st3 with breaker := st3.breaker.record_success p })
          else
            tryProviders registry calls hasCallback now rest st3
        | Except.error _ =>
          tryProviders registry calls hasCallback now rest
            { st3 with breaker := st3.breaker.record_failure p now }

/-- The AIEngine state relevant to generate: the set of configured provider
names (the keys of the providers dict) and the circuit breaker. -/
structure AIEngine where
  providers : List String
  circuit_breaker : CircuitBreaker
deriving DecidableEq

/-- AIEngine.generate: run the fallback loop over the fixed priority order,
starting from an empty trace. -/
def AIEngine.generate (eng : AIEngine) (calls : String → Except String String)
    (hasCallback : Bool) (now : Nat) : AIResponse × GenTrace :=
  tryProviders eng.providers calls hasCallback now provider_order
    { breaker := eng.circuit_breaker, invoked := [], progress := [] }

/-- The provider loop of AIEngine.generate with the progress callback modeled
as a fallible routine rather than a pure observer: the callback, when supplied,
is invoked with the status string before the try block of the provider call, so
an exception raised by the callback escapes the whole generate call. A raising
invocation is `none`; the escaping exception makes the result of the run
`none` (no AIResponse is produced). Everything else is as in tryProviders. -/
def tryProvidersCb (registry : List String)
    (calls : String → Except String String)
    (pcb : Option (String → Option Unit)) (now : Nat) :
    List String → GenTrace → Option (AIResponse × GenTrace)
  | [], st => some (allFailedResponse, st)
  | p :: rest, st =>
    if p ∉ registry then
      tryProvidersCb registry calls pcb now rest st
    else
      let av := st.breaker.is_available p now
      let st1 : GenTrace := { st with breaker := av.2 }
      if av.1 = false then
        tryProvidersCb registry calls pcb now rest st1
      else
        let notif : Option GenTrace :=
          match pcb with
          | some f =>
            match f ("🤖 Calling " ++ p.toUpper ++ "...") with
            | none => none
            | some _ =>
              some { st1 with
                progress := st1.progress ++ ["🤖 Calling " ++ p.toUpper ++ "..."] }
          | none => some st1
        match notif with
        | none => none
        | some st2 =>
          let st3 : GenTrace := { st2 with invoked := st2.invoked ++ [p] }
          match calls p with
          | Except.ok content =>
            if content ≠ "" then
              some ({ success := true, content := content, provider := p,
                      latency := 0, tokens := 0, error := none },
                    { st3 with breaker := st3.breaker.record_success p })
            else
              tryProvidersCb registry calls pcb now rest st3
          | Except.error _ =>
            tryProvidersCb registry calls pcb now rest
              { st3 with breaker := st3.breaker.record_failure p now }

/-- AIEngine.generate in the callback-aware model: `none` means an exception
escaped the call (which can only come from the supplied progress callback). -/
def AIEngine.generateCb (eng : AIEngine)
    (calls : String → Except String String)
    (pcb : Option (String → Option Unit)) (now : Nat) :
    Option (AIResponse × GenTrace) :=
  tryProvidersCb eng.providers calls pcb now provider_order
    { breaker := eng.circuit_breaker, invoked := [], progress := [] }

/-- The boolean decided by is_available, as a function of the configuration and
the record of the inspected provider alone. -/
def availValue (threshold timeout : Nat) (st : Option ProviderStatus)
    (now : Nat) : Bool :=
  match st with
  | none => decide (0 < threshold)
  | some status =>
    if status.last_failure.getD 0 ≠ 0 then
      if now - status.last_failure.getD 0 > timeout then true
      else decide (status.failures < threshold)
    else decide (status.failures < threshold)

/-- A run of consecutive record_failure calls for one provider, with the given
timestamps, and nothing else in between. -/
def recordFailures (cb : CircuitBreaker) (X : String) (ts : List Nat) :
    CircuitBreaker :=
  ts.foldl (fun c t => c.record_failure X t) cb

/-- One call into the public surface of the CircuitBreaker. -/
inductive BreakerOp
  | avail (p : String) (now : Nat)
  | fail (p : String) (now : Nat)
  | success (p : String)

/-- The state transition of one breaker call (is_available is run for its side
effect on the state). -/
def applyOp (cb : CircuitBreaker) : BreakerOp → CircuitBreaker
  | .avail p now => (cb.is_available p now).2
  | .fail p now => cb.record_failure p now
  | .success p => cb.record_success p

/-- The state after a finite sequence of breaker calls. -/
def runOps (cb : CircuitBreaker) (ops : List BreakerOp) : CircuitBreaker :=
  ops.foldl applyOp cb

/-- The per-record coupling property: the failure count is non-negative and is
zero exactly when no last-failure timestamp is stored. -/
def GoodStatus (s : ProviderStatus) : Prop :=
  0 ≤ s.failures ∧ (s.failures = 0 ↔ s.last_failure = none)

/-- Every record of the status map satisfies the coupling property. -/
def BreakerInv (cb : CircuitBreaker) : Prop :=
  ∀ kv ∈ cb.provider_status, GoodStatus kv.2

/-- Whether the character list `needle` occurs contiguously inside `hay`:
used to ask whether an error text mentions a given fragment. -/
def containsSeg (hay needle : List Char) : Bool :=
  (List.range (hay.length + 1)).any
    (fun i => ((hay.drop i).take needle.length) == needle)

/-! Basic algebra of the status map. -/

theorem lookup_updateStatus (m : List (String × ProviderStatus)) (p q : String)
    (f : ProviderStatus → ProviderStatus) :
    lookupStatus (updateStatus m p f) q =
      if q = p then (lookupStatus m q).map f else lookupStatus m q := by
  induction m with
  | nil => simp [updateStatus, lookupStatus]
  | cons kv t ih =>
    obtain ⟨k, v⟩ := kv
    by_cases hkp : k = p <;> by_cases hqk : q = k <;>
      simp [updateStatus, lookupStatus, hkp, hqk] at ih ⊢ <;>
      simp_all [updateStatus]

theorem statusOf_withMap (cb : CircuitBreaker)
    (m : List (String × ProviderStatus)) (q : String) :
    (cb.withMap m).statusOf q = lookupStatus m q := rfl

theorem statusOf_record_failure (cb : CircuitBreaker) (p q : String) (now : Nat) :
    (cb.record_failure p now).statusOf q =
      if q = p then
        (cb.statusOf q).map
          (fun s => { failures := s.failures + 1, last_failure := some now })
      else cb.statusOf q := by
  by_cases h : (cb.statusOf p).isSome
  · rw [CircuitBreaker.record_failure, if_pos h, statusOf_withMap,
      lookup_updateStatus]
    rfl
  · rw [CircuitBreaker.record_failure, if_neg h]
    by_cases hqp : q = p
    · rw [if_pos hqp, hqp, Option.not_isSome_iff_eq_none.mp h]
      rfl
    · rw [if_neg hqp]

theorem statusOf_record_success (cb : CircuitBreaker) (p q : String) :
    (cb.record_success p).statusOf q =
      if q = p then
        (cb.statusOf q).map (fun _ => { failures := 0, last_failure := none })
      else cb.statusOf q := by
  by_cases h : (cb.statusOf p).isSome
  · rw [CircuitBreaker.record_success, if_pos h, statusOf_withMap,
      lookup_updateStatus]
    rfl
  · rw [CircuitBreaker.record_success, if_neg h]
    by_cases hqp : q = p
    · rw [if_pos hqp, hqp, Option.not_isSome_iff_eq_none.mp h]
      rfl
    · rw [if_neg hqp]

theorem is_available_fst (cb : CircuitBreaker) (p : String) (now : Nat) :
    (cb.is_available p now).1 =
      availValue cb.failure_threshold cb.timeout (cb.statusOf p) now := by
  unfold CircuitBreaker.is_available availValue
  cases cb.statusOf p with
  | none => rfl
  | some status =>
    by_cases h1 : status.last_failure.getD 0 ≠ 0
    · by_cases h2 : now - status.last_failure.getD 0 > cb.timeout <;>
        simp [h1, h2]
    · simp [h1]

theorem is_available_snd_cases (cb : CircuitBreaker) (p : String) (now : Nat) :
    (cb.is_available p now).2 = cb ∨
    (cb.is_available p now).2 = cb.withMap (updateStatus cb.provider_status p
      (fun _ => { failures := 0, last_failure := none })) := by
  unfold CircuitBreaker.is_available
  cases cb.statusOf p with
  | none => exact Or.inl rfl
  | some status =>
    by_cases h1 : status.last_failure.getD 0 ≠ 0
    · by_cases h2 : now - status.last_failure.getD 0 > cb.timeout <;>
        simp [h1, h2]
    · simp [h1]

theorem is_available_snd_of_false (cb : CircuitBreaker) (p : String) (now : Nat)
    (h : (cb.is_available p now).1 = false) : (cb.is_available p now).2 = cb := by
  unfold CircuitBreaker.is_available at h ⊢
  cases hst : cb.statusOf p with
  | none => rfl
  | some status =>
    rw [hst] at h
    by_cases h1 : status.last_failure.getD 0 ≠ 0
    · by_cases h2 : now - status.last_failure.getD 0 > cb.timeout
      · simp [h1, h2] at h
      · simp [h1, h2]
    · simp [h1]

theorem statusOf_is_available_snd_ne (cb : CircuitBreaker) (p q : String)
    (now : Nat) (h : q ≠ p) :
    ((cb.is_available p now).2).statusOf q = cb.statusOf q := by
  rcases is_available_snd_cases cb p now with h2 | h2
  · rw [h2]
  · rw [h2, statusOf_withMap, lookup_updateStatus, if_neg h]
    rfl

theorem statusOf_is_available_snd_self (cb : CircuitBreaker) (p : String)
    (now : Nat) :
    ((cb.is_available p now).2).statusOf p = cb.statusOf p ∨
    ((cb.is_available p now).2).statusOf p =
      (cb.statusOf p).map (fun _ => { failures := 0, last_failure := none }) := by
  rcases is_available_snd_cases cb p now with h2 | h2 <;> rw [h2]
  · exact Or.inl rfl
  · rw [statusOf_withMap, lookup_updateStatus, if_pos rfl]
    exact Or.inr rfl

/-! The configuration fields are never mutated by the three operations. -/

theorem threshold_withMap (cb : CircuitBreaker)
    (m : List (String × ProviderStatus)) :
    (cb.withMap m).failure_threshold = cb.failure_threshold := rfl

theorem timeout_withMap (cb : CircuitBreaker)
    (m : List (String × ProviderStatus)) :
    (cb.withMap m).timeout = cb.timeout := rfl

theorem threshold_record_failure (cb : CircuitBreaker) (p : String) (now : Nat) :
    (cb.record_failure p now).failure_threshold = cb.failure_threshold := by
  unfold CircuitBreaker.record_failure
  split <;> rfl

theorem timeout_record_failure (cb : CircuitBreaker) (p : String) (now : Nat) :
    (cb.record_failure p now).timeout = cb.timeout := by
  unfold CircuitBreaker.record_failure
  split <;> rfl

theorem threshold_record_success (cb : CircuitBreaker) (p : String) :
    (cb.record_success p).failure_threshold = cb.failure_threshold := by
  unfold CircuitBreaker.record_success
  split <;> rfl

theorem timeout_record_success (cb : CircuitBreaker) (p : String) :
    (cb.record_success p).timeout = cb.timeout := by
  unfold CircuitBreaker.record_success
  split <;> rfl

theorem threshold_is_available_snd (cb : CircuitBreaker) (p : String)
    (now : Nat) :
    ((cb.is_available p now).2).failure_threshold = cb.failure_threshold := by
  rcases is_available_snd_cases cb p now with h2 | h2 <;> simp [h2, CircuitBreaker.withMap]

theorem timeout_is_available_snd (cb : CircuitBreaker) (p : String) (now : Nat) :
    ((cb.is_available p now).2).timeout = cb.timeout := by
  rcases is_available_snd_cases cb p now with h2 | h2 <;> simp [h2, CircuitBreaker.withMap]

/-- The availability boolean depends only on the configuration and on the
record of the provider being asked about. -/
theorem is_available_congr (cb1 cb2 : CircuitBreaker) (q : String) (now : Nat)
    (hst : cb1.statusOf q = cb2.statusOf q)
    (hth : cb1.failure_threshold = cb2.failure_threshold)
    (hto : cb1.timeout = cb2.timeout) :
    (cb1.is_available q now).1 = (cb2.is_available q now).1 := by
  rw [is_available_fst, is_available_fst, hst, hth, hto]

/-! Step lemmas for the provider loop of generate: one lemma per branch of
the loop body. -/

theorem tryProviders_nil (registry : List String)
    (calls : String → Except String String) (cbk : Bool) (now : Nat)
    (st : GenTrace) :
    tryProviders registry calls cbk now [] st = (allFailedResponse, st) := rfl

theorem tryProviders_not_registered (registry : List String)
    (calls : String → Except String String) (cbk : Bool) (now : Nat)
    (p : String) (rest : List String) (st : GenTrace) (h : p ∉ registry) :
    tryProviders registry calls cbk now (p :: rest) st =
      tryProviders registry calls cbk now rest st := by
  simp [tryProviders, h]

theorem tryProviders_unavailable (registry : List String)
    (calls : String → Except String String) (cbk : Bool) (now : Nat)
    (p : String) (rest : List String) (st : GenTrace) (hreg : p ∈ registry)
    (hav : (st.breaker.is_available p now).1 = false) :
    tryProviders registry calls cbk now (p :: rest) st =
      tryProviders registry calls cbk now rest st := by
  have hsnd := is_available_snd_of_false _ _ _ hav
  simp [tryProviders, hreg, hav, hsnd]

theorem tryProviders_error (registry : List String)
    (calls : String → Except String String) (cbk : Bool) (now : Nat)
    (p : String) (rest : List String) (st : GenTrace) (e : String)
    (hreg : p ∈ registry)
    (hav : (st.breaker.is_available p now).1 = true)
    (hcall : calls p = Except.error e) :
    tryProviders registry calls cbk now (p :: rest) st =
      tryProviders registry calls cbk now rest
        { breaker := ((st.breaker.is_available p now).2).record_failure p now
          invoked := st.invoked ++ [p]
          progress := progressAfter cbk st.progress p } := by
  simp [tryProviders, hreg, hav, hcall]

theorem tryProviders_empty (registry : List String)
    (calls : String → Except String String) (cbk : Bool) (now : Nat)
    (p : String) (rest : List String) (st : GenTrace)
    (hreg : p ∈ registry)
    (hav : (st.breaker.is_available p now).1 = true)
    (hcall : calls p = Except.ok "") :
    tryProviders registry calls cbk now (p :: rest) st =
      tryProviders registry calls cbk now rest
        { breaker := (st.breaker.is_available p now).2
          invoked := st.invoked ++ [p]
          progress := progressAfter cbk st.progress p } := by
  simp [tryProviders, hreg, hav, hcall]

theorem tryProviders_success (registry : List String)
    (calls : String → Except String String) (cbk : Bool) (now : Nat)
    (p : String) (rest : List String) (st : GenTrace) (s : String)
    (hreg : p ∈ registry)
    (hav : (st.breaker.is_available p now).1 = true)
    (hcall : calls p = Except.ok s) (hs : s ≠ "") :
    tryProviders registry calls cbk now (p :: rest) st =
      ({ success := true, content := s, provider := p, latency := 0,
         tokens := 0, error := none },
       { breaker := ((st.breaker.is_available p now).2).record_success p
         invoked := st.invoked ++ [p]
         progress := progressAfter cbk st.progress p }) := by
  simp [tryProviders, hreg, hav, hcall, hs]

/-- Transfer of an availability value across a breaker whose record for the
inspected provider and whose configuration agree with another breaker. -/
theorem avail_false_transfer (cb1 cb2 : CircuitBreaker) (q : String) (now : Nat)
    (h1 : cb1.statusOf q = cb2.statusOf q)
    (h2 : cb1.failure_threshold = cb2.failure_threshold)
    (h3 : cb1.timeout = cb2.timeout)
    (h : (cb2.is_available q now).1 = false) :
    (cb1.is_available q now).1 = false := by
  rw [is_available_congr cb1 cb2 q now h1 h2 h3]
  exact h

/-- A provider whose circuit is open at the start of the loop is never invoked:
operations performed on other providers do not change its record, so its own
availability check still fails when it is reached. -/
theorem not_invoked_of_unavailable (registry : List String)
    (calls : String → Except String String) (cbk : Bool) (now : Nat)
    (X : String) :
    ∀ (order : List String) (st : GenTrace),
      (st.breaker.is_available X now).1 = false →
      X ∉ st.invoked →
      X ∉ (tryProviders registry calls cbk now order st).2.invoked := by
  intro order
  induction order with
  | nil =>
    intro st hop hmem
    simpa [tryProviders_nil] using hmem
  | cons p rest ih =>
    intro st hop hmem
    by_cases hreg : p ∈ registry
    · by_cases hav : (st.breaker.is_available p now).1 = true
      · have hpX : p ≠ X := by
          intro hpe
          rw [hpe, hop] at hav
          exact Bool.false_ne_true hav
        have hXp : X ≠ p := fun hc => hpX hc.symm
        cases hcall : calls p with
        | ok s =>
          by_cases hs : s = ""
          · rw [hs] at hcall
            rw [tryProviders_empty registry calls cbk now p rest st hreg hav hcall]
            refine ih _ ?_ ?_
            · exact avail_false_transfer _ _ _ _
                (statusOf_is_available_snd_ne _ _ _ _ hXp)
                (threshold_is_available_snd _ _ _)
                (timeout_is_available_snd _ _ _) hop
            · simp [hmem, hXp]
          · rw [tryProviders_success registry calls cbk now p rest st s hreg hav
              hcall hs]
            simp [hmem, hXp]
        | error e =>
          rw [tryProviders_error registry calls cbk now p rest st e hreg hav hcall]
          refine ih _ ?_ ?_
          · refine avail_false_transfer _ _ _ _ ?_ ?_ ?_ hop
            · rw [statusOf_record_failure, if_neg hXp,
                statusOf_is_available_snd_ne _ _ _ _ hXp]
            · rw [threshold_record_failure, threshold_is_available_snd]
            · rw [timeout_record_failure, timeout_is_available_snd]
          · simp [hmem, hXp]
      · have hav2 : (st.breaker.is_available p now).1 = false := by
          cases hb : (st.breaker.is_available p now).1
          · rfl
          · exact absurd hb hav
        rw [tryProviders_unavailable registry calls cbk now p rest st hreg hav2]
        exact ih st hop hmem
    · rw [tryProviders_not_registered registry calls cbk now p rest st hreg]
      exact ih st hop hmem

/-- A provider absent from the registry is never invoked by the loop. -/
theorem not_invoked_of_not_registered (registry : List String)
    (calls : String → Except String String) (cbk : Bool) (now : Nat)
    (X : String) (hX : X ∉ registry) :
    ∀ (order : List String) (st : GenTrace),
      X ∉ st.invoked →
      X ∉ (tryProviders registry calls cbk now order st).2.invoked := by
  intro order
  induction order with
  | nil =>
    intro st hmem
    simpa [tryProviders_nil] using hmem
  | cons p rest ih =>
    intro st hmem
    by_cases hreg : p ∈ registry
    · have hXp : X ≠ p := fun hc => hX (hc ▸ hreg)
      by_cases hav : (st.breaker.is_available p now).1 = true
      · cases hcall : calls p with
        | ok s =>
          by_cases hs : s = ""
          · rw [hs] at hcall
            rw [tryProviders_empty registry calls cbk now p rest st hreg hav hcall]
            exact ih _ (by simp [hmem, hXp])
          · rw [tryProviders_success registry calls cbk now p rest st s hreg hav
              hcall hs]
            simp [hmem, hXp]
        | error e =>
          rw [tryProviders_error registry calls cbk now p rest st e hreg hav hcall]
          exact ih _ (by simp [hmem, hXp])
      · have hav2 : (st.breaker.is_available p now).1 = false := by
          cases hb : (st.breaker.is_available p now).1
          · rfl
          · exact absurd hb hav
        rw [tryProviders_unavailable registry calls cbk now p rest st hreg hav2]
        exact ih st hmem
    · rw [tryProviders_not_registered registry calls cbk now p rest st hreg]
      exact ih st hmem

/-- When a provider is skipped (not registered, circuit open) or its call
raises, the loop continues with the rest of the order from a state whose
breaker agrees with the previous one on every other provider and on the
configuration. -/
theorem tryProviders_skip_or_fail (registry : List String)
    (calls : String → Except String String) (cbk : Bool) (now : Nat)
    (p : String) (rest : List String) (st : GenTrace)
    (h : p ∉ registry ∨ (st.breaker.is_available p now).1 = false ∨
      ∃ e, calls p = Except.error e) :
    ∃ st2 : GenTrace,
      tryProviders registry calls cbk now (p :: rest) st =
        tryProviders registry calls cbk now rest st2 ∧
      (∀ q, q ≠ p → st2.breaker.statusOf q = st.breaker.statusOf q) ∧
      st2.breaker.failure_threshold = st.breaker.failure_threshold ∧
      st2.breaker.timeout = st.breaker.timeout := by
  by_cases hreg : p ∈ registry
  · by_cases hav : (st.breaker.is_available p now).1 = true
    · have he : ∃ e, calls p = Except.error e := by
        rcases h with h | h | h
        · exact absurd hreg h
        · rw [hav] at h
          exact absurd h (by simp)
        · exact h
      obtain ⟨e, hcall⟩ := he
      refine ⟨_, tryProviders_error registry calls cbk now p rest st e hreg hav
        hcall, ?_, ?_, ?_⟩
      · intro q hq
        rw [statusOf_record_failure, if_neg hq,
          statusOf_is_available_snd_ne _ _ _ _ hq]
      · rw [threshold_record_failure, threshold_is_available_snd]
      · rw [timeout_record_failure, timeout_is_available_snd]
    · have hav2 : (st.breaker.is_available p now).1 = false := by
        cases hb : (st.breaker.is_available p now).1
        · rfl
        · exact absurd hb hav
      exact ⟨st, tryProviders_unavailable registry calls cbk now p rest st hreg
        hav2, fun q _ => rfl, rfl, rfl⟩
  · exact ⟨st, tryProviders_not_registered registry calls cbk now p rest st hreg,
      fun q _ => rfl, rfl, rfl⟩

/-! Repeated consecutive failures, for the breaker-opening property. -/

theorem recordFailures_threshold (X : String) (ts : List Nat) :
    ∀ cb : CircuitBreaker,
      (recordFailures cb X ts).failure_threshold = cb.failure_threshold := by
  induction ts with
  | nil => intro cb; rfl
  | cons t ts2 ih =>
    intro cb
    show (recordFailures (cb.record_failure X t) X ts2).failure_threshold = _
    rw [ih, threshold_record_failure]

theorem recordFailures_timeout (X : String) (ts : List Nat) :
    ∀ cb : CircuitBreaker,
      (recordFailures cb X ts).timeout = cb.timeout := by
  induction ts with
  | nil => intro cb; rfl
  | cons t ts2 ih =>
    intro cb
    show (recordFailures (cb.record_failure X t) X ts2).timeout = _
    rw [ih, timeout_record_failure]

theorem recordFailures_statusOf (X : String) (ts : List Nat) :
    ∀ (cb : CircuitBreaker) (st0 : ProviderStatus) (tl : Nat),
      cb.statusOf X = some st0 → ts.getLast? = some tl →
      (recordFailures cb X ts).statusOf X =
        some { failures := st0.failures + ts.length, last_failure := some tl } := by
  induction ts with
  | nil =>
    intro cb st0 tl _ hlast
    simp at hlast
  | cons t ts2 ih =>
    intro cb st0 tl h hlast
    have hstep : (cb.record_failure X t).statusOf X =
        some { failures := st0.failures + 1, last_failure := some t } := by
      rw [statusOf_record_failure, if_pos rfl, h]
      rfl
    cases ts2 with
    | nil =>
      have htl : t = tl := by simpa using hlast
      show (cb.record_failure X t).statusOf X = _
      rw [hstep]
      simp [htl]
    | cons t2 ts3 =>
      have hlast2 : (t2 :: ts3).getLast? = some tl := by
        rwa [List.getLast?_cons_cons] at hlast
      have := ih (cb.record_failure X t)
        { failures := st0.failures + 1, last_failure := some t } tl hstep hlast2
      show (recordFailures (cb.record_failure X t) X (t2 :: ts3)).statusOf X = _
      rw [this]
      have hn : st0.failures + 1 + (t2 :: ts3).length =
          st0.failures + (t :: t2 :: ts3).length := by
        simp [List.length_cons]
        omega
      rw [hn]

/-- A provider whose failure count has reached the threshold and whose last
failure is within the cooldown window is reported unavailable. -/
theorem avail_false_of_threshold (cb : CircuitBreaker) (X : String)
    (F tl now : Nat)
    (h : cb.statusOf X = some { failures := F, last_failure := some tl })
    (hF : cb.failure_threshold ≤ F) (hexp : now - tl ≤ cb.timeout) :
    (cb.is_available X now).1 = false := by
  rw [is_available_fst, h]
  unfold availValue
  by_cases h0 : tl = 0
  · subst h0
    simp [Nat.not_lt.mpr hF]
  · have hgd : (Option.getD (some tl) 0 : Nat) = tl := rfl
    simp only [hgd]
    rw [if_pos h0, if_neg (by omega)]
    simp [Nat.not_lt.mpr hF]

/-! Sequences of breaker operations, for the state-coupling invariant. -/

theorem goodStatus_zero : GoodStatus { failures := 0, last_failure := none } := by
  constructor
  · exact Nat.zero_le 0
  · simp

theorem inv_updateStatus (m : List (String × ProviderStatus)) (p : String)
    (f : ProviderStatus → ProviderStatus)
    (hm : ∀ kv ∈ m, GoodStatus kv.2) (hf : ∀ s, GoodStatus (f s)) :
    ∀ kv ∈ updateStatus m p f, GoodStatus kv.2 := by
  intro kv hkv
  rw [updateStatus] at hkv
  obtain ⟨kv0, h0, heq⟩ := List.mem_map.mp hkv
  by_cases hk : kv0.1 = p
  · rw [if_pos hk] at heq
    rw [← heq]
    exact hf kv0.2
  · rw [if_neg hk] at heq
    rw [← heq]
    exact hm kv0 h0

theorem inv_applyOp (cb : CircuitBreaker) (op : BreakerOp)
    (h : BreakerInv cb) : BreakerInv (applyOp cb op) := by
  cases op with
  | avail p now =>
    show BreakerInv (cb.is_available p now).2
    rcases is_available_snd_cases cb p now with h2 | h2 <;> rw [h2]
    · exact h
    · intro kv hkv
      exact inv_updateStatus cb.provider_status p
        (fun _ => { failures := 0, last_failure := none }) h
        (fun _ => goodStatus_zero) kv hkv
  | fail p now =>
    show BreakerInv (cb.record_failure p now)
    unfold CircuitBreaker.record_failure
    split
    · intro kv hkv
      refine inv_updateStatus cb.provider_status p
        (fun s => { failures := s.failures + 1, last_failure := some now }) h
        (fun s => ?_) kv hkv
      constructor
      · exact Nat.zero_le _
      · simp
    · exact h
  | success p =>
    show BreakerInv (cb.record_success p)
    unfold CircuitBreaker.record_success
    split
    · intro kv hkv
      exact inv_updateStatus cb.provider_status p
        (fun _ => { failures := 0, last_failure := none }) h
        (fun _ => goodStatus_zero) kv hkv
    · exact h

theorem inv_runOps (ops : List BreakerOp) :
    ∀ cb : CircuitBreaker, BreakerInv cb → BreakerInv (runOps cb ops) := by
  induction ops with
  | nil => intro cb h; exact h
  | cons op ops2 ih =>
    intro cb h
    exact ih (applyOp cb op) (inv_applyOp cb op h)

theorem inv_init (thr tmo : Nat) : BreakerInv (CircuitBreaker.init thr tmo) := by
  intro kv hkv
  simp [CircuitBreaker.init] at hkv
  rcases hkv with h | h | h <;> rw [h] <;> exact goodStatus_zero

/-! Claim theorems. -/

/-- C6: Breaker recovers lazily: for a registered provider whose recorded
last-failure timestamp is set (a positive clock value, as time.time always
returns) and older than timeout_seconds, the next is_available call returns
true and, as a side effect, resets the consecutive-failure count to 0 and
clears the timestamp. -/
theorem claim_C6_breaker_recovers_lazily (cb : CircuitBreaker) (X : String)
    (st : ProviderStatus) (t now : Nat)
    (hstat : cb.statusOf X = some st) (hlf : st.last_failure = some t)
    (ht : 0 < t) (helapsed : cb.timeout < now - t) :
    (cb.is_available X now).1 = true ∧
    ((cb.is_available X now).2).statusOf X =
      some { failures := 0, last_failure := none } := by
  have hne : st.last_failure.getD 0 ≠ 0 := by
    rw [hlf]
    simpa using Nat.pos_iff_ne_zero.mp ht
  have hgt : now - st.last_failure.getD 0 > cb.timeout := by
    rw [hlf]
    simpa using helapsed
  constructor
  · rw [is_available_fst, hstat]
    unfold availValue
    dsimp only
    rw [if_pos hne, if_pos hgt]
  · unfold CircuitBreaker.is_available
    rw [hstat]
    dsimp only
    rw [if_pos hne, if_pos hgt]
    dsimp only
    rw [statusOf_withMap, lookup_updateStatus, if_pos rfl]
    show (cb.statusOf X).map _ = _
    rw [hstat]
    rfl

/-- Witness for C6 at a concrete input: one failure at time 1, checked at
time 302 with the default timeout 300. -/
theorem claim_C6_witness :
    ((CircuitBreaker.mkDefault.record_failure "gemini" 1).is_available
      "gemini" 302).1 = true ∧
    (((CircuitBreaker.mkDefault.record_failure "gemini" 1).is_available
      "gemini" 302).2).statusOf "gemini" =
      some { failures := 0, last_failure := none } :=
  claim_C6_breaker_recovers_lazily
    (CircuitBreaker.mkDefault.record_failure "gemini" 1) "gemini"
    { failures := 1, last_failure := some 1 } 1 302 (by decide) rfl
    (by decide) (by decide)

/-- C7: Success resets the breaker: for a provider present in the status map,
one record_success sets its failure count to 0 and clears its last-failure
timestamp, whatever the prior state; for a provider absent from the map,
record_success leaves the whole breaker unchanged. -/
theorem claim_C7_success_resets (cb : CircuitBreaker) (X Y : String) :
    (∀ st : ProviderStatus, cb.statusOf X = some st →
      (cb.record_success X).statusOf X =
        some { failures := 0, last_failure := none }) ∧
    (cb.statusOf Y = none → cb.record_success Y = cb) := by
  constructor
  · intro st hst
    rw [statusOf_record_success, if_pos rfl, hst]
    rfl
  · intro hY
    simp [CircuitBreaker.record_success, hY]

/-- Witness for C7 at concrete inputs: a breaker with two recorded failures for
gemini is reset by one success; record_success for an unknown name is the
identity. -/
theorem claim_C7_witness :
    (((CircuitBreaker.mkDefault.record_failure "gemini" 1).record_failure
        "gemini" 2).record_success "gemini").statusOf "gemini" =
      some { failures := 0, last_failure := none } ∧
    CircuitBreaker.mkDefault.record_success "mistral" =
      CircuitBreaker.mkDefault :=
  ⟨(claim_C7_success_resets
      ((CircuitBreaker.mkDefault.record_failure "gemini" 1).record_failure
        "gemini" 2) "gemini" "mistral").1
      { failures := 2, last_failure := some 2 } (by decide),
   (claim_C7_success_resets CircuitBreaker.mkDefault "gemini" "mistral").2
      (by decide)⟩

/-- C9 counterexample: the claim quantifies over every CircuitBreaker state,
but a breaker constructed with failure_threshold 0 reports an unknown provider
(here with no record in the status map) as unavailable, because 0 < 0 fails. -/
theorem claim_C9_counterexample :
    (CircuitBreaker.init 0 300).statusOf "mistral" = none ∧
    ((CircuitBreaker.init 0 300).is_available "mistral" 10).1 = false := by
  constructor
  · decide
  · decide

/-- C9 amended: for every breaker whose failure_threshold is positive (the
constructor default is 3), a provider identity with no record in the status map
is reported available. -/
theorem claim_C9_unknown_fails_open (cb : CircuitBreaker) (p : String)
    (now : Nat) (hpos : 0 < cb.failure_threshold)
    (hunk : cb.statusOf p = none) :
    (cb.is_available p now).1 = true := by
  rw [is_available_fst, hunk]
  unfold availValue
  simpa using hpos

/-- Witness for the amended C9 at a concrete input: the default breaker and a
name absent from its status map. -/
theorem claim_C9_witness :
    (CircuitBreaker.mkDefault.is_available "mistral" 10).1 = true :=
  claim_C9_unknown_fails_open CircuitBreaker.mkDefault "mistral" 10
    (by decide) (by decide)

/-- C10: State-coupling invariant: from the initial breaker state, after every
finite sequence of is_available, record_failure and record_success calls every
stored record has a non-negative failure count that is zero exactly when no
last-failure timestamp is stored. -/
theorem claim_C10_state_coupling (thr tmo : Nat) (ops : List BreakerOp) :
    BreakerInv (runOps (CircuitBreaker.init thr tmo) ops) :=
  inv_runOps ops (CircuitBreaker.init thr tmo) (inv_init thr tmo)

/-- Witness for C10 at a concrete operation sequence. -/
theorem claim_C10_witness :
    BreakerInv (runOps (CircuitBreaker.init 3 300)
      [BreakerOp.fail "gemini" 5, BreakerOp.avail "gemini" 400,
       BreakerOp.success "deepseek"]) :=
  claim_C10_state_coupling 3 300
    [BreakerOp.fail "gemini" 5, BreakerOp.avail "gemini" 400,
     BreakerOp.success "deepseek"]

/-- C5: Breaker opens and open circuits are never attempted: after
failure_threshold consecutive record_failure calls for a registered provider X
(timestamps ts, the last one being tl) with no intervening success and no
timeout expiry at the time of the check, is_available reports X unavailable,
and a generate call made in that state never invokes the call routine of X,
whatever the registry, the call oracle and the callback. -/
theorem claim_C5_breaker_opens_then_skipped (cb0 : CircuitBreaker) (X : String)
    (st0 : ProviderStatus) (ts : List Nat) (tl now : Nat)
    (hreg : cb0.statusOf X = some st0)
    (hlen : ts.length = cb0.failure_threshold)
    (hlast : ts.getLast? = some tl)
    (hexp : now - tl ≤ cb0.timeout) :
    ((recordFailures cb0 X ts).is_available X now).1 = false ∧
    ∀ (registry : List String) (calls : String → Except String String)
      (cbk : Bool),
      X ∉ ((AIEngine.mk registry (recordFailures cb0 X ts)).generate calls cbk
        now).2.invoked := by
  have hstat := recordFailures_statusOf X ts cb0 st0 tl hreg hlast
  have hopen : ((recordFailures cb0 X ts).is_available X now).1 = false := by
    refine avail_false_of_threshold _ X (st0.failures + ts.length) tl now hstat
      ?_ ?_
    · rw [recordFailures_threshold, ← hlen]
      omega
    · rw [recordFailures_timeout]
      exact hexp
  refine ⟨hopen, ?_⟩
  intro registry calls cbk
  exact not_invoked_of_unavailable registry calls cbk now X provider_order
    { breaker := recordFailures cb0 X ts, invoked := [], progress := [] } hopen
    (by simp)

/-- Witness for C5 at a concrete input: three failures for gemini at times
1, 2, 3 against the default breaker, checked at time 10; a generate call with
gemini and deepseek configured does not invoke gemini. -/
theorem claim_C5_witness :
    ((recordFailures CircuitBreaker.mkDefault "gemini" [1, 2, 3]).is_available
      "gemini" 10).1 = false ∧
    "gemini" ∉ ((AIEngine.mk ["gemini", "deepseek"]
      (recordFailures CircuitBreaker.mkDefault "gemini" [1, 2, 3])).generate
      (fun _ => Except.ok "ok") true 10).2.invoked := by
  have h := claim_C5_breaker_opens_then_skipped CircuitBreaker.mkDefault
    "gemini" { failures := 0, last_failure := none } [1, 2, 3] 3 10
    (by decide) (by decide) (by decide) (by decide)
  exact ⟨h.1, h.2 ["gemini", "deepseek"] (fun _ => Except.ok "ok") true⟩

/-- C8: Not-configured providers are invisible to an attempt: skipping a
provider absent from the registry changes nothing at all in the loop state (in
particular no breaker record of any provider is touched and the provider is not
invoked), and a full generate call never invokes such a provider. -/
theorem claim_C8_not_configured_invisible (p : String) (registry : List String)
    (calls : String → Except String String) (cbk : Bool) (now : Nat)
    (hnot : p ∉ registry) :
    (∀ (rest : List String) (st : GenTrace),
      tryProviders registry calls cbk now (p :: rest) st =
        tryProviders registry calls cbk now rest st) ∧
    (∀ cb : CircuitBreaker,
      p ∉ ((AIEngine.mk registry cb).generate calls cbk now).2.invoked) := by
  constructor
  · intro rest st
    exact tryProviders_not_registered registry calls cbk now p rest st hnot
  · intro cb
    exact not_invoked_of_not_registered registry calls cbk now p hnot
      provider_order { breaker := cb, invoked := [], progress := [] } (by simp)

/-- Witness for C8 at a concrete input: grok is not configured, so the loop
step over grok is the identity on the state and grok is never invoked. -/
theorem claim_C8_witness :
    (tryProviders ["gemini"] (fun _ => Except.ok "hi") false 0 ["grok"]
      { breaker := CircuitBreaker.mkDefault, invoked := [], progress := [] } =
      tryProviders ["gemini"] (fun _ => Except.ok "hi") false 0 []
      { breaker := CircuitBreaker.mkDefault, invoked := [], progress := [] }) ∧
    "grok" ∉ ((AIEngine.mk ["gemini"] CircuitBreaker.mkDefault).generate
      (fun _ => Except.ok "hi") false 0).2.invoked := by
  have h := claim_C8_not_configured_invisible "grok" ["gemini"]
    (fun _ => Except.ok "hi") false 0 (by decide)
  exact ⟨h.1 []
    { breaker := CircuitBreaker.mkDefault, invoked := [], progress := [] },
    h.2 CircuitBreaker.mkDefault⟩

/-- When every provider of the priority order is either not configured, has an
open circuit, or raises, the generate run returns the fixed failure response. -/
theorem generate_total_failure (eng : AIEngine)
    (calls : String → Except String String) (cbk : Bool) (now : Nat)
    (h : ∀ p ∈ provider_order, p ∉ eng.providers ∨
      (eng.circuit_breaker.is_available p now).1 = false ∨
      ∃ e, calls p = Except.error e) :
    (eng.generate calls cbk now).1 = allFailedResponse := by
  have hg := h "gemini" (by decide)
  have hd := h "deepseek" (by decide)
  have hk := h "grok" (by decide)
  obtain ⟨st1, he1, hf1, hth1, hto1⟩ :=
    tryProviders_skip_or_fail eng.providers calls cbk now "gemini"
      ["deepseek", "grok"]
      { breaker := eng.circuit_breaker, invoked := [], progress := [] } hg
  have hd1 : "deepseek" ∉ eng.providers ∨
      (st1.breaker.is_available "deepseek" now).1 = false ∨
      ∃ e, calls "deepseek" = Except.error e := by
    rcases hd with hd | hd | hd
    · exact Or.inl hd
    · exact Or.inr (Or.inl (avail_false_transfer st1.breaker
        eng.circuit_breaker "deepseek" now (hf1 "deepseek" (by decide)) hth1
        hto1 hd))
    · exact Or.inr (Or.inr hd)
  obtain ⟨st2, he2, hf2, hth2, hto2⟩ :=
    tryProviders_skip_or_fail eng.providers calls cbk now "deepseek" ["grok"]
      st1 hd1
  have hk2 : "grok" ∉ eng.providers ∨
      (st2.breaker.is_available "grok" now).1 = false ∨
      ∃ e, calls "grok" = Except.error e := by
    rcases hk with hk | hk | hk
    · exact Or.inl hk
    · refine Or.inr (Or.inl (avail_false_transfer st2.breaker
        eng.circuit_breaker "grok" now ?_ ?_ ?_ hk))
      · rw [hf2 "grok" (by decide)]
        exact hf1 "grok" (by decide)
      · rw [hth2]
        exact hth1
      · rw [hto2]
        exact hto1
    · exact Or.inr (Or.inr hk)
  obtain ⟨st3, he3, hf3, hth3, hto3⟩ :=
    tryProviders_skip_or_fail eng.providers calls cbk now "grok" [] st2 hk2
  have hrun : eng.generate calls cbk now = (allFailedResponse, st3) := by
    show tryProviders eng.providers calls cbk now
      ["gemini", "deepseek", "grok"]
      { breaker := eng.circuit_breaker, invoked := [], progress := [] } = _
    rw [he1, he2, he3, tryProviders_nil]
  rw [hrun]

/-- With a progress callback that never raises (and also when no callback is
supplied), the callback-aware loop never produces an escaped exception and
returns exactly the observer-model loop result. -/
theorem tryProvidersCb_eq_tryProviders (registry : List String)
    (calls : String → Except String String) (now : Nat)
    (pcb : Option (String → Option Unit))
    (hcb : ∀ f, pcb = some f → ∀ msg, f msg = some ()) :
    ∀ (order : List String) (st : GenTrace),
      tryProvidersCb registry calls pcb now order st =
        some (tryProviders registry calls pcb.isSome now order st) := by
  intro order
  induction order with
  | nil => intro st; rfl
  | cons p rest ih =>
    intro st
    by_cases hreg : p ∈ registry
    · by_cases hav : (st.breaker.is_available p now).1 = true
      · cases hpcb : pcb with
        | none =>
          rw [hpcb] at ih
          simp only [Option.isSome_none] at ih
          cases hcall : calls p with
          | ok s =>
            by_cases hs : s = ""
            · subst hs
              simp [tryProvidersCb, tryProviders, hreg, hav, hcall,
                progressAfter]
              exact ih _
            · simp [tryProvidersCb, tryProviders, hreg, hav, hcall, hs,
                progressAfter]
          | error e =>
            simp [tryProvidersCb, tryProviders, hreg, hav, hcall,
              progressAfter]
            exact ih _
        | some f =>
          have hf : ∀ msg, f msg = some () := hcb f hpcb
          rw [hpcb] at ih
          simp only [Option.isSome_some] at ih
          cases hcall : calls p with
          | ok s =>
            by_cases hs : s = ""
            · subst hs
              simp [tryProvidersCb, tryProviders, hreg, hav, hcall, hf,
                progressAfter]
              exact ih _
            · simp [tryProvidersCb, tryProviders, hreg, hav, hcall, hf, hs,
                progressAfter]
          | error e =>
            simp [tryProvidersCb, tryProviders, hreg, hav, hcall, hf,
              progressAfter]
            exact ih _
      · have hav2 : (st.breaker.is_available p now).1 = false := by
          cases hb : (st.breaker.is_available p now).1
          · rfl
          · exact absurd hb hav
        simp [tryProvidersCb, tryProviders, hreg, hav2, ih]
    · simp [tryProvidersCb, tryProviders, hreg, ih]

/-- C2 counterexample: the claim quantifies over any supplied progress
callback, but the callback is invoked outside the try block of the provider
call; here all three providers are configured and healthy, every call routine
raises, and the supplied callback raises on its first invocation, so the
exception escapes and generate returns no AIResponse at all. -/
theorem claim_C2_counterexample :
    (AIEngine.mk ["gemini", "deepseek", "grok"]
        CircuitBreaker.mkDefault).generateCb
      (fun p => Except.error ("fail-" ++ p))
      (some (fun _ => none)) 0 = none := by
  decide

/-- C2 amended: for every input whose supplied progress callback does not
itself raise (including the case of no callback), generate never raises: the
callback-aware run produces some result, equal to the observer-model run; and
when additionally every configured provider is absent from the registry, has
an open circuit, or raises, that result has success false, provider none,
empty content, and a non-empty error. -/
theorem claim_C2_total_failure_nonthrowing (eng : AIEngine)
    (calls : String → Except String String)
    (pcb : Option (String → Option Unit)) (now : Nat)
    (hcb : ∀ f, pcb = some f → ∀ msg, f msg = some ()) :
    (eng.generateCb calls pcb now =
      some (eng.generate calls pcb.isSome now)) ∧
    ((∀ p ∈ provider_order, p ∉ eng.providers ∨
        (eng.circuit_breaker.is_available p now).1 = false ∨
        ∃ e, calls p = Except.error e) →
      ∃ r tr, eng.generateCb calls pcb now = some (r, tr) ∧
        r.success = false ∧ r.provider = "none" ∧ r.content = "" ∧
        ∃ msg, r.error = some msg ∧ msg ≠ "") := by
  have heq : eng.generateCb calls pcb now =
      some (eng.generate calls pcb.isSome now) :=
    tryProvidersCb_eq_tryProviders eng.providers calls now pcb hcb
      provider_order
      { breaker := eng.circuit_breaker, invoked := [], progress := [] }
  refine ⟨heq, ?_⟩
  intro h
  have hrun := generate_total_failure eng calls pcb.isSome now h
  refine ⟨(eng.generate calls pcb.isSome now).1,
    (eng.generate calls pcb.isSome now).2, by rw [heq], ?_, ?_, ?_,
    allFailedMessage, ?_, ?_⟩
  · rw [hrun]
    rfl
  · rw [hrun]
    rfl
  · rw [hrun]
    rfl
  · rw [hrun]
    rfl
  · decide

/-- Witness for the amended C2 at a concrete input: all three providers
configured and healthy, every call routine raising, and a supplied callback
that never raises. -/
theorem claim_C2_witness :
    ((AIEngine.mk ["gemini", "deepseek", "grok"]
        CircuitBreaker.mkDefault).generateCb
      (fun p => Except.error ("fail-" ++ p))
      (some (fun _ => some ())) 0 =
      some ((AIEngine.mk ["gemini", "deepseek", "grok"]
          CircuitBreaker.mkDefault).generate
        (fun p => Except.error ("fail-" ++ p)) true 0)) ∧
    ∃ r tr, (AIEngine.mk ["gemini", "deepseek", "grok"]
        CircuitBreaker.mkDefault).generateCb
      (fun p => Except.error ("fail-" ++ p))
      (some (fun _ => some ())) 0 = some (r, tr) ∧
      r.success = false ∧ r.provider = "none" := by
  have h := claim_C2_total_failure_nonthrowing
    (AIEngine.mk ["gemini", "deepseek", "grok"] CircuitBreaker.mkDefault)
    (fun p => Except.error ("fail-" ++ p)) (some (fun _ => some ())) 0
    (by intro f hf msg; cases hf; rfl)
  obtain ⟨r, tr, heq, hsucc, hprov, _, _⟩ :=
    h.2 (fun p _ => Or.inr (Or.inr ⟨"fail-" ++ p, rfl⟩))
  exact ⟨h.1, r, tr, heq, hsucc, hprov⟩

/-- C3 counterexample: with three configured, healthy providers whose call
routines all raise with distinct messages, every provider is attempted in
order, but the error of the failure result is the fixed message: it does not
contain the reason recorded for gemini, nor even the provider name, so it does
not list, in attempt order, the reason each provider was unusable. -/
theorem claim_C3_counterexample :
    ((AIEngine.mk ["gemini", "deepseek", "grok"]
        CircuitBreaker.mkDefault).generate
      (fun p => Except.error ("fail-" ++ p)) false 3).2.invoked =
      ["gemini", "deepseek", "grok"] ∧
    ((AIEngine.mk ["gemini", "deepseek", "grok"]
        CircuitBreaker.mkDefault).generate
      (fun p => Except.error ("fail-" ++ p)) false 3).1.error =
      some allFailedMessage ∧
    containsSeg allFailedMessage.data "fail-gemini".data = false ∧
    containsSeg allFailedMessage.data "gemini".data = false := by
  refine ⟨by decide, by decide, by decide, by decide⟩

/-- C3 amended: when generate exhausts three available, healthy providers whose
call routines all raise, the providers are attempted in the configured order,
and the failure result carries the fixed non-empty error message, which does
not list the per-provider reasons. -/
theorem claim_C3_fixed_error_in_order (eng : AIEngine)
    (calls : String → Except String String) (cbk : Bool) (now : Nat)
    (hreg : ∀ p ∈ provider_order, p ∈ eng.providers)
    (hav : ∀ p ∈ provider_order,
      (eng.circuit_breaker.is_available p now).1 = true)
    (herr : ∀ p ∈ provider_order, ∃ e, calls p = Except.error e) :
    (eng.generate calls cbk now).2.invoked = ["gemini", "deepseek", "grok"] ∧
    (eng.generate calls cbk now).1.error = some allFailedMessage ∧
    allFailedMessage ≠ "" := by
  obtain ⟨e1, hc1⟩ := herr "gemini" (by decide)
  obtain ⟨e2, hc2⟩ := herr "deepseek" (by decide)
  obtain ⟨e3, hc3⟩ := herr "grok" (by decide)
  have hg := hav "gemini" (by decide)
  have hd := hav "deepseek" (by decide)
  have hk := hav "grok" (by decide)
  have he1 := tryProviders_error eng.providers calls cbk now "gemini"
    ["deepseek", "grok"]
    { breaker := eng.circuit_breaker, invoked := [], progress := [] } e1
    (hreg "gemini" (by decide)) hg hc1
  set cbA : CircuitBreaker :=
    ((eng.circuit_breaker.is_available "gemini" now).2).record_failure
      "gemini" now with hcbA
  have hdA : (cbA.is_available "deepseek" now).1 = true := by
    rw [is_available_congr cbA eng.circuit_breaker "deepseek" now ?_ ?_ ?_]
    · exact hd
    · rw [hcbA, statusOf_record_failure, if_neg (by decide),
        statusOf_is_available_snd_ne _ _ _ _ (by decide)]
    · rw [hcbA, threshold_record_failure, threshold_is_available_snd]
    · rw [hcbA, timeout_record_failure, timeout_is_available_snd]
  have he2 := tryProviders_error eng.providers calls cbk now "deepseek"
    ["grok"]
    { breaker := cbA, invoked := [] ++ ["gemini"]
      progress := progressAfter cbk [] "gemini" } e2
    (hreg "deepseek" (by decide)) hdA hc2
  set cbB : CircuitBreaker :=
    ((cbA.is_available "deepseek" now).2).record_failure "deepseek" now
    with hcbB
  have hkB : (cbB.is_available "grok" now).1 = true := by
    rw [is_available_congr cbB eng.circuit_breaker "grok" now ?_ ?_ ?_]
    · exact hk
    · rw [hcbB, statusOf_record_failure, if_neg (by decide),
        statusOf_is_available_snd_ne _ _ _ _ (by decide), hcbA,
        statusOf_record_failure, if_neg (by decide),
        statusOf_is_available_snd_ne _ _ _ _ (by decide)]
    · rw [hcbB, threshold_record_failure, threshold_is_available_snd, hcbA,
        threshold_record_failure, threshold_is_available_snd]
    · rw [hcbB, timeout_record_failure, timeout_is_available_snd, hcbA,
        timeout_record_failure, timeout_is_available_snd]
  have he3 := tryProviders_error eng.providers calls cbk now "grok" []
    { breaker := cbB, invoked := ([] ++ ["gemini"]) ++ ["deepseek"]
      progress := progressAfter cbk (progressAfter cbk [] "gemini")
        "deepseek" } e3
    (hreg "grok" (by decide)) hkB hc3
  have hrun : eng.generate calls cbk now =
      (allFailedResponse,
       { breaker := ((cbB.is_available "grok" now).2).record_failure "grok" now
         invoked := (([] ++ ["gemini"]) ++ ["deepseek"]) ++ ["grok"]
         progress := progressAfter cbk
           (progressAfter cbk (progressAfter cbk [] "gemini") "deepseek")
           "grok" }) := by
    show tryProviders eng.providers calls cbk now
      ["gemini", "deepseek", "grok"]
      { breaker := eng.circuit_breaker, invoked := [], progress := [] } = _
    rw [he1, he2, he3, tryProviders_nil]
  rw [hrun]
  refine ⟨rfl, rfl, ?_⟩
  decide

/-- Witness for the amended C3 at a concrete input: three healthy configured
providers, all raising with distinct messages. -/
theorem claim_C3_witness :
    ((AIEngine.mk ["gemini", "deepseek", "grok"]
        CircuitBreaker.mkDefault).generate
      (fun p => Except.error ("down-" ++ p)) true 9).2.invoked =
      ["gemini", "deepseek", "grok"] ∧
    ((AIEngine.mk ["gemini", "deepseek", "grok"]
        CircuitBreaker.mkDefault).generate
      (fun p => Except.error ("down-" ++ p)) true 9).1.error =
      some allFailedMessage := by
  have h := claim_C3_fixed_error_in_order
    (AIEngine.mk ["gemini", "deepseek", "grok"] CircuitBreaker.mkDefault)
    (fun p => Except.error ("down-" ++ p)) true 9
    (by intro p hp; fin_cases hp <;> decide)
    (by intro p hp; fin_cases hp <;> decide)
    (fun p _ => ⟨"down-" ++ p, rfl⟩)
  exact ⟨h.1, h.2.1⟩

/-- C4 counterexample: with only deepseek configured and its call routine
returning an empty response, deepseek is attempted but no failure is recorded
for it: the whole breaker is left in its initial state, while the claim
requires a record_failure call for every attempted provider that returns an
empty response. -/
theorem claim_C4_counterexample :
    ((AIEngine.mk ["deepseek"] CircuitBreaker.mkDefault).generate
      (fun _ => Except.ok "") false 0).2.invoked = ["deepseek"] ∧
    ((AIEngine.mk ["deepseek"] CircuitBreaker.mkDefault).generate
      (fun _ => Except.ok "") false 0).2.breaker = CircuitBreaker.mkDefault ∧
    ((AIEngine.mk ["deepseek"] CircuitBreaker.mkDefault).generate
      (fun _ => Except.ok "") false 0).2.breaker.statusOf "deepseek" =
      some { failures := 0, last_failure := none } := by
  refine ⟨by decide, by decide, by decide⟩

/-- C4 amended: for every attempted provider (configured and available) whose
call routine raises, generate records a failure for that provider on the
breaker (its stored record gets a positive failure count stamped with the
current time) and continues with the next provider in order; an attempted
provider whose call routine returns an empty response is passed over without a
record_failure call (the breaker is exactly as the availability check left it)
and iteration likewise continues with the next provider. -/
theorem claim_C4_raise_records_empty_does_not (registry : List String)
    (calls : String → Except String String) (cbk : Bool) (now : Nat)
    (p : String) (rest : List String) (st : GenTrace)
    (hreg : p ∈ registry) (hav : (st.breaker.is_available p now).1 = true) :
    (∀ e, calls p = Except.error e →
      tryProviders registry calls cbk now (p :: rest) st =
        tryProviders registry calls cbk now rest
          { breaker := ((st.breaker.is_available p now).2).record_failure p now
            invoked := st.invoked ++ [p]
            progress := progressAfter cbk st.progress p } ∧
      ∀ s0, st.breaker.statusOf p = some s0 →
        ∃ s1, (((st.breaker.is_available p now).2).record_failure p
            now).statusOf p = some s1 ∧ 0 < s1.failures ∧
            s1.last_failure = some now) ∧
    (calls p = Except.ok "" →
      tryProviders registry calls cbk now (p :: rest) st =
        tryProviders registry calls cbk now rest
          { breaker := (st.breaker.is_available p now).2
            invoked := st.invoked ++ [p]
            progress := progressAfter cbk st.progress p }) := by
  constructor
  · intro e hcall
    refine ⟨tryProviders_error registry calls cbk now p rest st e hreg hav
      hcall, ?_⟩
    intro s0 hs0
    rcases statusOf_is_available_snd_self st.breaker p now with h2 | h2
    · refine ⟨{ failures := s0.failures + 1, last_failure := some now }, ?_,
        Nat.succ_pos s0.failures, rfl⟩
      rw [statusOf_record_failure, if_pos rfl, h2, hs0]
      rfl
    · refine ⟨{ failures := 0 + 1, last_failure := some now }, ?_,
        Nat.succ_pos 0, rfl⟩
      rw [statusOf_record_failure, if_pos rfl, h2, hs0]
      rfl
  · intro hcall
    exact tryProviders_empty registry calls cbk now p rest st hreg hav hcall

/-- Witness for the amended C4 at concrete inputs: one run whose provider
raises, one run whose provider answers with the empty string. -/
theorem claim_C4_witness :
    (tryProviders ["gemini"] (fun _ => Except.error "boom") false 0 ["gemini"]
      { breaker := CircuitBreaker.mkDefault, invoked := [], progress := [] } =
      tryProviders ["gemini"] (fun _ => Except.error "boom") false 0 []
        { breaker :=
            ((CircuitBreaker.mkDefault.is_available "gemini"
              0).2).record_failure "gemini" 0
          invoked := [] ++ ["gemini"]
          progress := progressAfter false [] "gemini" }) ∧
    (tryProviders ["gemini"] (fun _ => Except.ok "") false 0 ["gemini"]
      { breaker := CircuitBreaker.mkDefault, invoked := [], progress := [] } =
      tryProviders ["gemini"] (fun _ => Except.ok "") false 0 []
        { breaker := (CircuitBreaker.mkDefault.is_available "gemini" 0).2
          invoked := [] ++ ["gemini"]
          progress := progressAfter false [] "gemini" }) := by
  have h1 := claim_C4_raise_records_empty_does_not ["gemini"]
    (fun _ => Except.error "boom") false 0 "gemini" []
    { breaker := CircuitBreaker.mkDefault, invoked := [], progress := [] }
    (by decide) (by decide)
  have h2 := claim_C4_raise_records_empty_does_not ["gemini"]
    (fun _ => Except.ok "") false 0 "gemini" []
    { breaker := CircuitBreaker.mkDefault, invoked := [], progress := [] }
    (by decide) (by decide)
  exact ⟨(h1.1 "boom" rfl).1, h2.2 rfl⟩

/-- C1: First success wins: with gemini (the earlier provider) configured,
available and raising, and deepseek (the next provider) configured, available
and returning non-empty text, generate returns immediately a success whose
content is that text and whose provider is deepseek, records the failure of
gemini and the success of deepseek in the breaker, and invokes nothing after
deepseek (grok is never invoked, whatever its configuration). -/
theorem claim_C1_first_success_wins (eng : AIEngine)
    (calls : String → Except String String) (cbk : Bool) (now : Nat)
    (e s : String) (stG stD : ProviderStatus)
    (hGreg : "gemini" ∈ eng.providers)
    (hGstat : eng.circuit_breaker.statusOf "gemini" = some stG)
    (hGav : (eng.circuit_breaker.is_available "gemini" now).1 = true)
    (hGcall : calls "gemini" = Except.error e)
    (hDreg : "deepseek" ∈ eng.providers)
    (hDstat : eng.circuit_breaker.statusOf "deepseek" = some stD)
    (hDav : (eng.circuit_breaker.is_available "deepseek" now).1 = true)
    (hDcall : calls "deepseek" = Except.ok s) (hs : s ≠ "") :
    (eng.generate calls cbk now).1.success = true ∧
    (eng.generate calls cbk now).1.content = s ∧
    (eng.generate calls cbk now).1.provider = "deepseek" ∧
    (∃ stg, (eng.generate calls cbk now).2.breaker.statusOf "gemini" =
      some stg ∧ 0 < stg.failures ∧ stg.last_failure = some now) ∧
    (eng.generate calls cbk now).2.breaker.statusOf "deepseek" =
      some { failures := 0, last_failure := none } ∧
    (eng.generate calls cbk now).2.invoked = ["gemini", "deepseek"] := by
  have he1 := tryProviders_error eng.providers calls cbk now "gemini"
    ["deepseek", "grok"]
    { breaker := eng.circuit_breaker, invoked := [], progress := [] } e
    hGreg hGav hGcall
  set cbA : CircuitBreaker :=
    ((eng.circuit_breaker.is_available "gemini" now).2).record_failure
      "gemini" now with hcbA
  have hDA : cbA.statusOf "deepseek" = some stD := by
    rw [hcbA, statusOf_record_failure, if_neg (by decide),
      statusOf_is_available_snd_ne _ _ _ _ (by decide)]
    exact hDstat
  have hdavA : (cbA.is_available "deepseek" now).1 = true := by
    rw [is_available_congr cbA eng.circuit_breaker "deepseek" now ?_ ?_ ?_]
    · exact hDav
    · rw [hcbA, statusOf_record_failure, if_neg (by decide),
        statusOf_is_available_snd_ne _ _ _ _ (by decide)]
    · rw [hcbA, threshold_record_failure, threshold_is_available_snd]
    · rw [hcbA, timeout_record_failure, timeout_is_available_snd]
  have he2 := tryProviders_success eng.providers calls cbk now "deepseek"
    ["grok"]
    { breaker := cbA, invoked := [] ++ ["gemini"]
      progress := progressAfter cbk [] "gemini" } s
    hDreg hdavA hDcall hs
  have hrun : eng.generate calls cbk now =
      ({ success := true, content := s, provider := "deepseek", latency := 0,
         tokens := 0, error := none },
       { breaker := ((cbA.is_available "deepseek" now).2).record_success
           "deepseek"
         invoked := ([] ++ ["gemini"]) ++ ["deepseek"]
         progress := progressAfter cbk (progressAfter cbk [] "gemini")
           "deepseek" }) := by
    show tryProviders eng.providers calls cbk now
      ["gemini", "deepseek", "grok"]
      { breaker := eng.circuit_breaker, invoked := [], progress := [] } = _
    rw [he1, he2]
  rw [hrun]
  have hgem : (((cbA.is_available "deepseek" now).2).record_success
      "deepseek").statusOf "gemini" =
      ((((eng.circuit_breaker.is_available "gemini" now).2).statusOf
        "gemini").map
        (fun s0 => { failures := s0.failures + 1, last_failure := some now })) := by
    rw [statusOf_record_success, if_neg (by decide),
      statusOf_is_available_snd_ne _ _ _ _ (by decide), hcbA,
      statusOf_record_failure, if_pos rfl]
  refine ⟨rfl, rfl, rfl, ?_, ?_, by simp⟩
  · rcases statusOf_is_available_snd_self eng.circuit_breaker "gemini" now with
      h2 | h2
    · exact ⟨{ failures := stG.failures + 1, last_failure := some now },
        by rw [hgem, h2, hGstat]; rfl, Nat.succ_pos stG.failures, rfl⟩
    · exact ⟨{ failures := 0 + 1, last_failure := some now },
        by rw [hgem, h2, hGstat]; rfl, Nat.succ_pos 0, rfl⟩
  · rw [statusOf_record_success, if_pos rfl]
    rcases statusOf_is_available_snd_self cbA "deepseek" now with h2 | h2 <;>
      rw [h2, hDA] <;> rfl

/-- Witness for C1 at a concrete input: gemini raises, deepseek answers. -/
theorem claim_C1_witness :
    ((AIEngine.mk ["gemini", "deepseek", "grok"]
        CircuitBreaker.mkDefault).generate
      (fun p => if p = "gemini" then Except.error "boom"
                else Except.ok "answer") true 7).1.content = "answer" ∧
    ((AIEngine.mk ["gemini", "deepseek", "grok"]
        CircuitBreaker.mkDefault).generate
      (fun p => if p = "gemini" then Except.error "boom"
                else Except.ok "answer") true 7).1.provider = "deepseek" ∧
    ((AIEngine.mk ["gemini", "deepseek", "grok"]
        CircuitBreaker.mkDefault).generate
      (fun p => if p = "gemini" then Except.error "boom"
                else Except.ok "answer") true 7).2.invoked =
      ["gemini", "deepseek"] := by
  have h := claim_C1_first_success_wins
    (AIEngine.mk ["gemini", "deepseek", "grok"] CircuitBreaker.mkDefault)
    (fun p => if p = "gemini" then Except.error "boom"
              else Except.ok "answer") true 7 "boom" "answer"
    { failures := 0, last_failure := none }
    { failures := 0, last_failure := none }
    (by decide) (by decide) (by decide) rfl (by decide) (by decide)
    (by decide) rfl (by decide)
  exact ⟨h.2.1, h.2.2.1, h.2.2.2.2.2⟩

end LearningHub
